import Mathlib

/-!
Verification development for the ai-virtual-tryon browser extension's
generation pipeline.

The JavaScript sources are shallowly embedded as Lean definitions:

* numbers are modelled as `ℚ` (the concrete claims under study are robust
  to floating-point rounding) and array indices / byte values as `ℕ`;
* JavaScript strings are `String` / `List Char`; falsiness of a string is
  emptiness, absence of an object field is `Option.none`;
* the two regular expressions used by the code (the confidence pattern and
  the data-URI image pattern) are modelled by explicit scanners with the
  same search-and-match semantics;
* network calls and `JSON.parse` are external effects: a call outcome is an
  `Except` parameter and the structured decode of a candidate JSON substring
  is an oracle parameter (`String → ...Json`), so theorems quantify over
  every possible behaviour of the external service and decoder;
* `Array.prototype.sort` with a consistent comparator is a stable sort,
  whose output is uniquely determined; it is embedded as a structurally
  recursive stable insertion sort.

Sources embedded: lib/image-processor.js (ImageProcessor), the enhanced
GeminiIntegration / TryOnGenerator classes, and the background service
worker's image-processing coordinator.
-/

namespace VTO

/-! ## JavaScript string primitives -/

/-- Opening curly brace character (written via its code point). -/
def lbrace : Char := Char.ofNat 123

/-- Closing curly brace character (written via its code point). -/
def rbrace : Char := Char.ofNat 125

/-- ASCII lower-casing of one character, as performed by
`String.prototype.toLowerCase` on the ASCII inputs this code base
feeds it. -/
def asciiLower (c : Char) : Char :=
  if 65 ≤ c.toNat ∧ c.toNat ≤ 90 then Char.ofNat (c.toNat + 32) else c

/-- Lower-case a character list. -/
def lowerStr (s : List Char) : List Char := s.map asciiLower

/-- Whitespace class of JavaScript regular expressions (ASCII part):
space, tab, newline, carriage return, vertical tab, form feed. -/
def isJsSpace (c : Char) : Bool :=
  c == ' ' || c == '\t' || c == '\n' || c == '\r' ||
  c == Char.ofNat 11 || c == Char.ofNat 12

/-- Containment of `sub` as a contiguous substring, as in
`String.prototype.includes`. -/
def hasSub (sub : List Char) : List Char → Bool
  | [] => sub.isEmpty
  | c :: rest => sub.isPrefixOf (c :: rest) || hasSub sub rest

/-- Trim of leading and trailing whitespace (`String.prototype.trim`). -/
def trimStr (s : List Char) : List Char :=
  ((s.dropWhile isJsSpace).reverse.dropWhile isJsSpace).reverse

/-- Split at newline characters (`content.split('\n')`). -/
def splitNl : List Char → List (List Char)
  | [] => [[]]
  | c :: rest =>
    match splitNl rest with
    | [] => [[]]
    | l :: ls => if c == '\n' then [] :: l :: ls else (c :: l) :: ls

/-- Numeric value of a digit run (the integer part of `parseFloat`). -/
def digitsToNat (ds : List Char) : ℕ :=
  ds.foldl (fun n c => 10 * n + (c.toNat - 48)) 0

/-- Value of `parseFloat` on a string of shape `\d+(\.\d+)?`. -/
def decValue (intPart fracPart : List Char) : ℚ :=
  (digitsToNat intPart : ℚ) + (digitsToNat fracPart : ℚ) / 10 ^ fracPart.length

/-- Truthiness of an optional string field: a JS string is truthy iff it is
present and non-empty. -/
def strTruthy (o : Option String) : Bool :=
  match o with
  | some s => !s.data.isEmpty
  | none => false

/-! ## Regular-expression models

`GeminiIntegration.extractConfidence` searches for
`/confidence[:\s]+(\d+(?:\.\d+)?)/i`; `extractGeneratedImage` searches text
parts for `/data:image\/[^;]+;base64,([A-Za-z0-9+\/=]+)/`; several parsers
use `/\{[\s\S]*\}/`.  Each is embedded as an explicit scanner.  In every
pattern the greedy sub-expressions are followed by characters disjoint from
their class, so maximal munch without backtracking is exact. -/

/-- Character class `[:\s]` of the confidence pattern. -/
def isColonOrSpace (c : Char) : Bool := c == ':' || isJsSpace c

/-- Attempt to match `[:\s]+(\d+(?:\.\d+)?)` at the head of `s`
(the suffix after a literal `confidence`); returns the captured number. -/
def confidenceNumAt (s : List Char) : Option ℚ :=
  let seps := s.takeWhile isColonOrSpace
  if seps.isEmpty then none
  else
    let rest := s.drop seps.length
    let ds := rest.takeWhile Char.isDigit
    if ds.isEmpty then none
    else
      match rest.drop ds.length with
      | '.' :: r2 =>
        let fs := r2.takeWhile Char.isDigit
        if fs.isEmpty then some (digitsToNat ds : ℚ) else some (decValue ds fs)
      | _ => some (digitsToNat ds : ℚ)

/-- Search for the confidence pattern anywhere in an (already lower-cased)
string, first match wins. -/
def scanConfidence : List Char → Option ℚ
  | [] => none
  | c :: rest =>
    match
      (if ("confidence".data.isPrefixOf (c :: rest))
       then confidenceNumAt ((c :: rest).drop 10) else none) with
    | some q => some q
    | none => scanConfidence rest

/-- Base64 alphabet class `[A-Za-z0-9+/=]` of the data-URI pattern. -/
def isB64Char (c : Char) : Bool :=
  c.isAlphanum || c == '+' || c == '/' || c == '='

/-- Attempt to match the data-URI image pattern at the head of `s`;
returns the captured base64 group. -/
def dataUriAt (s : List Char) : Option (List Char) :=
  if "data:image/".data.isPrefixOf s then
    let rest := s.drop 11
    let mt := rest.takeWhile (fun c => !(c == ';'))
    if mt.isEmpty then none
    else
      let rest2 := rest.drop mt.length
      if ";base64,".data.isPrefixOf rest2 then
        let ds := (rest2.drop 8).takeWhile isB64Char
        if ds.isEmpty then none else some ds
      else none
  else none

/-- Search for the data-URI image pattern anywhere in a string. -/
def scanDataUri : List Char → Option (List Char)
  | [] => none
  | c :: rest =>
    match dataUriAt (c :: rest) with
    | some r => some r
    | none => scanDataUri rest

/-- Model of `content.match(/\{[\s\S]*\}/)`: with `[\s\S]*` greedy the match,
when it exists, runs from the first `\x7b` in the string to the last `\x7d`
(which must lie strictly after it).  Note this is a greedy span, not the
first *balanced* brace group. -/
def braceMatch (content : String) : Option String :=
  let s := content.data
  match s.findIdx? (fun c => c == lbrace) with
  | some i =>
    match s.reverse.findIdx? (fun c => c == rbrace) with
    | some k =>
      let j := s.length - 1 - k
      if i < j then some (String.mk ((s.drop i).take (j - i + 1))) else none
    | none => none
  | none => none

end VTO

namespace VTO

/-! ## ImageProcessor (lib/image-processor.js) -/

/-- Model of `Math.round` on finite numbers: round half toward positive
infinity, i.e. `⌊x + 1/2⌋`. -/
def jsRound (q : ℚ) : ℤ := Rat.floor (q + 1/2)

/-- The rounding model agrees with the mathematical floor of `q + 1/2`. -/
theorem jsRound_eq_floor (q : ℚ) : jsRound q = ⌊q + 1/2⌋ :=
  (Rat.floor_def' (q + 1/2)).trans (Rat.floor_def).symm

/-- Embedding of `ImageProcessor.calculateDimensions`: scale down to fit
`maxWidth`, then to fit `maxHeight`, rounding the final dimensions. -/
def calculateDimensions (originalWidth originalHeight maxWidth maxHeight : ℚ) :
    ℤ × ℤ :=
  let width := originalWidth
  let height := originalHeight
  let p1 : ℚ × ℚ :=
    if maxWidth < width then (maxWidth, height * maxWidth / width)
    else (width, height)
  let p2 : ℚ × ℚ :=
    if maxHeight < p1.2 then (p1.1 * maxHeight / p1.2, maxHeight)
    else p1
  (jsRound p2.1, jsRound p2.2)

/-- Stable insertion step: the new element `a` (later in source order) is
placed before `b` only when it is strictly earlier in the comparator
order, matching the stability guarantee of `Array.prototype.sort`. -/
def stableSortInsert (le : α → α → Bool) (a : α) : List α → List α
  | [] => [a]
  | b :: bs =>
    if le a b && !(le b a) then a :: b :: bs else b :: stableSortInsert le a bs

/-- Stable sort via left fold of stable insertions; extensionally equal to
`Array.prototype.sort` with a consistent comparator, whose output on any
input is uniquely determined by stability. -/
def jsStableSort (le : α → α → Bool) (l : List α) : List α :=
  l.foldl (fun acc a => stableSortInsert le a acc) []

/-- RGBA reading of bytes `i, i+1, i+2, i+3` for each sampled index
`i = 16·j` with `i < data.length` (`// Sample every 4th pixel`);
out-of-range reads are `undefined` and fail every numeric comparison,
so a pixel contributes only when all four bytes exist. -/
def sampledPixels (data : List ℕ) : List (ℕ × ℕ × ℕ × ℕ) :=
  (List.range ((data.length + 15) / 16)).filterMap fun j =>
    match data.get? (16 * j), data.get? (16 * j + 1),
        data.get? (16 * j + 2), data.get? (16 * j + 3) with
    | some r, some g, some b, some a => some (r, g, b, a)
    | _, _, _, _ => none

/-- Colors of the sampled pixels passing the opacity test `a > 128`
(`// Skip transparent pixels`).  The JS code keys its `Map` by the string
`rgb(r,g,b)`, which is injective on the numeric triple; the triple itself
is used as the key here. -/
def sampledSolidColors (data : List ℕ) : List (ℕ × ℕ × ℕ) :=
  (sampledPixels data).filterMap fun p =>
    if 128 < p.2.2.2 then some (p.1, p.2.1, p.2.2.1) else none

/-- Insert a key if not already present (JS `Map.set` key order:
first-insertion order). -/
def insertOnce (ks : List (ℕ × ℕ × ℕ)) (k : ℕ × ℕ × ℕ) : List (ℕ × ℕ × ℕ) :=
  if k ∈ ks then ks else ks ++ [k]

/-- Keys of the frequency map in first-occurrence order. -/
def firstOccurrences (l : List (ℕ × ℕ × ℕ)) : List (ℕ × ℕ × ℕ) :=
  l.foldl insertOnce []

/-- Comparator `(a, b) => b[1] - a[1]` of `analyzeColors`: `x` may precede
`y` iff `y`'s count does not exceed `x`'s. -/
def countDescLe (x y : (ℕ × ℕ × ℕ) × ℕ) : Bool := y.2 ≤ x.2

/-- Embedding of `ImageProcessor.analyzeColors`: bucket sampled opaque
pixels by exact RGB triple, sort buckets by descending frequency, return
the top `colorCount`. -/
def analyzeColors (data : List ℕ) (colorCount : ℕ) :
    List ((ℕ × ℕ × ℕ) × ℕ) :=
  let colors := sampledSolidColors data
  let entries := (firstOccurrences colors).map fun k => (k, colors.count k)
  (jsStableSort countDescLe entries).take colorCount

end VTO

namespace VTO

/-! ## Service response model and GeminiIntegration -/

/-- An `inline_data` block of a response part (`mime_type`, `data`). -/
structure InlineBlock where
  mimeType : Option String
  dataStr : Option String
deriving DecidableEq

/-- One response part: optional `inline_data`, optional `text`. -/
structure RespPart where
  inlineData : Option InlineBlock
  text : Option String
deriving DecidableEq

/-- A candidate's `content` (optional `parts` array). -/
structure RespContent where
  parts : Option (List RespPart)
deriving DecidableEq

/-- One response candidate, with the alternative image fields the extractor
probes (`candidate.image`, `candidate.image_data`). -/
structure RespCandidate where
  content : Option RespContent
  image : Option String
  imageData : Option String
deriving DecidableEq

/-- A service response (`candidates` may be absent). -/
structure GeminiResponse where
  candidates : Option (List RespCandidate)
deriving DecidableEq

/-- Parts iterated by the extractor: the loop is guarded by
`candidate.content && candidate.content.parts`. -/
def candParts (c : RespCandidate) : List RespPart :=
  match c.content with
  | some ct => ct.parts.getD []
  | none => []

/-- Image payload of one part, per the extractor's test: `inline_data`
present, truthy `mime_type` starting with `image/`, truthy `data`. -/
def partImageData (p : RespPart) : Option String :=
  match p.inlineData with
  | some idt =>
    match idt.mimeType, idt.dataStr with
    | some mt, some d =>
      if !mt.data.isEmpty && "image/".data.isPrefixOf mt.data
          && !d.data.isEmpty then some d else none
    | _, _ => none
  | none => none

/-- Base64 capture of a data-URI image embedded in a truthy text part. -/
def partTextDataUri (p : RespPart) : Option String :=
  match p.text with
  | some t =>
    if !t.data.isEmpty then (scanDataUri t.data).map String.mk else none
  | none => none

/-- Embedding of `GeminiIntegration.createFallbackTryOnImage`.  The source
renders a 400×600 placeholder (gradient background, captions, border) on an
HTML canvas and returns the base64 payload of its JPEG encoding; the
canvas encoder is a browser built-in, so the resulting payload is abstracted
as a fixed non-empty base64 string.  Every property proved about it uses
only that it is a non-empty string produced locally. -/
def createFallbackTryOnImage : String := "FALLBACKPLACEHOLDERJPEGBASE64"

/-- Embedding of `GeminiIntegration.extractGeneratedImage`: first inline
image part, else `candidate.image`, else `candidate.image_data`, else the
first data-URI image inside a text part, else the locally synthesized
fallback placeholder.  The surrounding `try/catch` also resolves to the
fallback, so the function is total. -/
def extractGeneratedImage (r : GeminiResponse) : String :=
  match r.candidates with
  | some (c :: _) =>
    match (candParts c).findSome? partImageData with
    | some d => d
    | none =>
      if strTruthy c.image then c.image.getD "" else
      if strTruthy c.imageData then c.imageData.getD "" else
      match (candParts c).findSome? partTextDataUri with
      | some d => d
      | none => createFallbackTryOnImage
  | _ => createFallbackTryOnImage

/-- Recognized-image predicate, following the specification's enumeration:
an inline-data part with media type starting `image/`, a `candidate.image`
or `candidate.image_data` field, or a data-URI image pattern inside a text
part — each on the first candidate. -/
def responseHasImage (r : GeminiResponse) : Bool :=
  match r.candidates with
  | some (c :: _) =>
    (candParts c).any (fun p => (partImageData p).isSome)
      || strTruthy c.image || strTruthy c.imageData
      || (candParts c).any (fun p => (partTextDataUri p).isSome)
  | _ => false

/-- Result object of `GeminiIntegration.refineGeneratedImage`. -/
structure RefineOutcome where
  success : Bool
  refinedImage : Option String
  imageUrl : Option String
  errorMsg : Option String
deriving DecidableEq

/-- Embedding of `GeminiIntegration.refineGeneratedImage`: on a resolved
API response it extracts an image with `extractGeneratedImage` and reports
`success: !!refinedImage`; a thrown API error is caught and reported as
`success: false` with the message. -/
def refineGeneratedImage (api : Except String GeminiResponse) : RefineOutcome :=
  match api with
  | .error e =>
    { success := false, refinedImage := none, imageUrl := none,
      errorMsg := some e }
  | .ok resp =>
    let refined := extractGeneratedImage resp
    { success := !refined.data.isEmpty,
      refinedImage := some refined,
      imageUrl := if !refined.data.isEmpty
        then some ("data:image/jpeg;base64," ++ refined) else none,
      errorMsg := none }

/-- Text of `response.candidates[0].content.parts[0].text`; `none` when any
link of the chain is missing (the JS expression then throws and the caller's
`catch` runs). -/
def firstPartText (r : GeminiResponse) : Option String :=
  match r.candidates with
  | some (c :: _) =>
    match c.content with
    | some ct =>
      match ct.parts with
      | some (p :: _) => p.text
      | _ => none
    | none => none
  | _ => none

/-- One detected clothing item of the structured Detect decode. -/
structure DetectedItem where
  category : Option String
  itemType : Option String
  confidence : Option ℚ
deriving DecidableEq

/-- Outcome of `JSON.parse` on the brace-matched substring of a Detect
response: either a decoded object (fields optional) or a thrown parse
error.  `JSON.parse` is a JS built-in, modelled as an oracle. -/
inductive DetectJson where
  | decoded (items : Option (List DetectedItem))
      (background lighting quality : Option String)
  | fail

/-- Result object of `parseClothingDetectionResponse`. -/
structure DetectParsed where
  success : Bool
  items : List DetectedItem
  metaRawText : Option String
  metaBackground : Option String
  metaLighting : Option String
  metaQuality : Option String
  errorMsg : Option String

/-- Embedding of `GeminiIntegration.parseClothingDetectionResponse`.
Missing candidates throw `No response from API`; a missing text chain
throws a `TypeError`; both are caught and returned as `success: false`.
When the greedy brace span exists, `JSON.parse` is attempted: a decode
failure propagates to the same `catch` (`success: false`); only when no
brace span exists does the code degrade to a successful result with
`items: []` and `metadata.rawText` set to the full text. -/
def parseClothingDetectionResponse (r : GeminiResponse)
    (decode : String → DetectJson) : DetectParsed :=
  match r.candidates with
  | none =>
    { success := false, items := [], metaRawText := none,
      metaBackground := none, metaLighting := none, metaQuality := none,
      errorMsg := some "No response from API" }
  | some [] =>
    { success := false, items := [], metaRawText := none,
      metaBackground := none, metaLighting := none, metaQuality := none,
      errorMsg := some "No response from API" }
  | some (_ :: _) =>
    match firstPartText r with
    | none =>
      { success := false, items := [], metaRawText := none,
        metaBackground := none, metaLighting := none, metaQuality := none,
        errorMsg := some "TypeError" }
    | some content =>
      match braceMatch content with
      | some m =>
        match decode m with
        | .decoded items bg lt q =>
          { success := true, items := items.getD [], metaRawText := none,
            metaBackground := bg, metaLighting := lt, metaQuality := q,
            errorMsg := none }
        | .fail =>
          { success := false, items := [], metaRawText := none,
            metaBackground := none, metaLighting := none,
            metaQuality := none, errorMsg := some "JSON parse error" }
      | none =>
        { success := true, items := [], metaRawText := some content,
          metaBackground := none, metaLighting := none, metaQuality := none,
          errorMsg := none }

/-- Embedding of `GeminiIntegration.extractRecommendations`: keep the
trimmed lines mentioning `recommend`, `suggest` or `advice`
(case-insensitively). -/
def extractRecommendations (content : String) : List String :=
  (splitNl content.data).filterMap fun line =>
    if hasSub "recommend".data (lowerStr line)
        || hasSub "suggest".data (lowerStr line)
        || hasSub "advice".data (lowerStr line)
    then some (String.mk (trimStr line)) else none

/-- Embedding of `GeminiIntegration.extractConfidence`: first match of the
confidence pattern, else the default `0.8`. -/
def extractConfidence (content : String) : ℚ :=
  (scanConfidence (lowerStr content.data)).getD (4/5)

end VTO

namespace VTO

/-! ## GeminiIntegration: analysis, generation, safety -/

/-- Outcome of `JSON.parse` on the brace-matched substring of an Analyze
response (fields of interest only; absent fields are `none`). -/
inductive AnalysisJson where
  | decoded (confidenceScore : Option ℚ) (recommendations : Option (List String))
      (description : Option String)
  | fail

/-- Result object of `parseAdvancedTryOnResponse` (fields consumed by the
callers). -/
structure AnalysisParsed where
  success : Bool
  description : Option String
  recommendations : List String
  confidence : Option ℚ
  advanced : Bool
  errorMsg : Option String

/-- Embedding of `GeminiIntegration.parseAdvancedTryOnResponse`.  Unlike the
Detect parser, a `JSON.parse` failure here is caught *locally* and the code
falls through to heuristic text mining (`extractRecommendations`,
`extractConfidence`); only a missing candidates/text chain yields
`success: false`. -/
def parseAdvancedTryOnResponse (r : GeminiResponse)
    (decode : String → AnalysisJson) : AnalysisParsed :=
  match r.candidates with
  | none =>
    { success := false, description := none, recommendations := [],
      confidence := none, advanced := false,
      errorMsg := some "No response from API" }
  | some [] =>
    { success := false, description := none, recommendations := [],
      confidence := none, advanced := false,
      errorMsg := some "No response from API" }
  | some (_ :: _) =>
    match firstPartText r with
    | none =>
      { success := false, description := none, recommendations := [],
        confidence := none, advanced := false,
        errorMsg := some "TypeError" }
    | some content =>
      let textual : AnalysisParsed :=
        { success := true, description := some content,
          recommendations := extractRecommendations content,
          confidence := some (extractConfidence content),
          advanced := false, errorMsg := none }
      match braceMatch content with
      | some m =>
        match decode m with
        | .decoded cs recs desc =>
          { success := true,
            description := if strTruthy desc then desc else some content,
            recommendations := recs.getD [],
            confidence := some (match cs with
              | some c => if c = 0 then 4/5 else c
              | none => 4/5),
            advanced := true, errorMsg := none }
        | .fail => textual
      | none => textual

/-- Embedding of `GeminiIntegration.analyzeTryOnResult`: a thrown API call
is caught and replaced by the canned basic feedback (confidence `0.8`);
otherwise the response is parsed. -/
def analyzeTryOnResult (api : Except String GeminiResponse)
    (decode : String → AnalysisJson) : AnalysisParsed :=
  match api with
  | .error _ =>
    { success := true,
      description := some "Virtual try-on image generated successfully",
      recommendations := ["Review the fit and styling"],
      confidence := some (4/5), advanced := false, errorMsg := none }
  | .ok resp => parseAdvancedTryOnResponse resp decode

/-- Embedding of `GeminiIntegration.generateTryOnImage`: a thrown API call
yields an error result; otherwise the generated image is extracted (the
`No image generated in response` branch exists in the source but
`extractGeneratedImage` always returns a truthy payload). -/
def generateTryOnImage (api : Except String GeminiResponse) :
    Except String String :=
  match api with
  | .error e => .error e
  | .ok resp =>
    let img := extractGeneratedImage resp
    if img.data.isEmpty then .error "No image generated in response"
    else .ok img

/-- Successful payload of `GeminiIntegration.generateTryOn` (fields consumed
by `TryOnGenerator.performAITryOn`). -/
structure AIResult where
  generatedImage : Option String
  imageUrl : Option String
  description : String
  recommendations : List String
  confidence : ℚ
  safetyAssessment : String
  advanced : Bool

/-- Embedding of `GeminiIntegration.generateTryOn`: requires an API key,
generates the composite image, then analyzes it; field defaults follow the
source's `||` fallbacks. -/
def geminiGenerateTryOn (apiKeySet : Bool)
    (imageApi analysisApi : Except String GeminiResponse)
    (decode : String → AnalysisJson) : Except String AIResult :=
  if !apiKeySet then .error "API key not set"
  else
    match generateTryOnImage imageApi with
    | .error e => .error e
    | .ok img =>
      let analysis := analyzeTryOnResult analysisApi decode
      .ok
        { generatedImage := some img,
          imageUrl := some ("data:image/jpeg;base64," ++ img),
          description := (analysis.description.filter
            (fun d => !d.data.isEmpty)).getD
            "Virtual try-on generated successfully",
          recommendations := analysis.recommendations,
          confidence := match analysis.confidence with
            | some c => if c = 0 then 9/10 else c
            | none => 9/10,
          safetyAssessment := "appropriate",
          advanced := analysis.advanced }

/-- Outcome of `JSON.parse` on the brace-matched substring of a Safety
response.  The `safe` field is `some true` / `some false` when the decoded
object carries that boolean, `none` when absent. -/
inductive SafetyJson where
  | decoded (safeField : Option Bool) (concerns : Option (List String))
      (recommendation : Option String)
  | fail

/-- Result object of `GeminiIntegration.validateImageSafety`. -/
structure SafetyOutcome where
  safe : Bool
  concerns : List String
  recommendation : Option String
  warning : Option String
  rawResponse : Option String
deriving DecidableEq

/-- Embedding of `GeminiIntegration.validateImageSafety`.  The call
parameter stands for the whole guarded block (API round trip plus the
`candidates[0].content.parts[0].text` access): any throw lands in the
`catch`, which resolves `safe: true`.  On decoded JSON, `safe` is
`result.safe !== false` and the recommendation defaults to `proceed`. -/
def validateImageSafety (apiKeySet : Bool) (call : Except String String)
    (decode : String → SafetyJson) : SafetyOutcome :=
  if !apiKeySet then
    { safe := true, concerns := [], recommendation := none,
      warning := some "No API key for safety check", rawResponse := none }
  else
    match call with
    | .error _ =>
      { safe := true, concerns := [], recommendation := none,
        warning := some "Safety check unavailable", rawResponse := none }
    | .ok content =>
      match braceMatch content with
      | some m =>
        match decode m with
        | .decoded sf cs rec =>
          { safe := !(sf == some false),
            concerns := cs.getD [],
            recommendation := some ((rec.filter
              (fun s => !s.data.isEmpty)).getD "proceed"),
            warning := none, rawResponse := some content }
        | .fail =>
          { safe := true, concerns := [], recommendation := none,
            warning := some "Safety check unavailable", rawResponse := none }
      | none =>
        { safe := true, concerns := [], recommendation := none,
          warning := none, rawResponse := some content }

end VTO

namespace VTO

/-! ## TryOnGenerator (enhanced class) -/

/-- Result object flowing out of `performAITryOn` (after
`addSafetyWatermark`).  The watermark block itself holds provenance
metadata (model name, ISO timestamp, disclaimer, synth id) produced from
the clock and RNG; its presence is modelled by the `watermarked` flag. -/
structure WatermarkedResult where
  description : String
  recommendations : List String
  confidence : ℚ
  generatedImage : Option String
  imageUrl : Option String
  processingMethod : String
  hasGeneratedImage : Bool
  watermarked : Bool
  isAIGenerated : Bool

/-- Canned description pool of `generateEnhancedMockTryOn` (the first entry
interpolates the clothing category). -/
def mockDescriptions (category : String) : List String :=
  ["The " ++ category ++ " fits well and complements your body shape. The color works nicely with your skin tone.",
   "This item creates a flattering silhouette. Consider pairing with complementary accessories.",
   "The fit appears comfortable and stylish. The fabric drapes naturally on your frame.",
   "This piece enhances your natural features while maintaining a modern, fashionable look."]

/-- Canned recommendation pool of `generateEnhancedMockTryOn`. -/
def mockRecommendations : List String :=
  ["Consider sizing up for a more relaxed fit",
   "This color palette works well with your complexion",
   "Pair with neutral accessories for a balanced look",
   "The style suits your body type perfectly"]

/-- Embedding of `TryOnGenerator.generateEnhancedMockTryOn`.  The two
`Math.floor(Math.random() * 4)` draws are passed in as indices (taken
modulo the pool size).  The mock object carries no generated image; the
safety watermark is still applied to it. -/
def generateEnhancedMockTryOn (category : String) (randD randR : ℕ) :
    WatermarkedResult :=
  { description := (mockDescriptions category).getD (randD % 4) "",
    recommendations := [mockRecommendations.getD (randR % 4) ""],
    confidence := 17/20,
    generatedImage := none,
    imageUrl := none,
    processingMethod := "enhanced-mock-generator",
    hasGeneratedImage := false,
    watermarked := true,
    isAIGenerated := true }

/-- Outcome of `performAITryOn`, together with whether the external
generation call (`geminiIntegration.generateTryOn`) was dispatched on this
run. -/
structure PerformOutcome where
  result : WatermarkedResult
  generationCalled : Bool

/-- Reject test applied to each safety check:
`!safetyCheck.safe && safetyCheck.recommendation === 'reject'`. -/
def safetyRejected (s : SafetyOutcome) : Bool :=
  !s.safe && s.recommendation == some "reject"

/-- Embedding of `TryOnGenerator.performAITryOn` (enhanced version).  The
two safety rejections `throw`, but the function's own `catch` converts
every throw — safety rejection or failed generation alike — into the
watermarked mock fallback; on success the result is watermarked with
`processingMethod: 'gemini-2.5-flash-image'`. -/
def performAITryOn (userSafety clothingSafety : SafetyOutcome)
    (category : String) (gen : Except String AIResult) (randD randR : ℕ) :
    PerformOutcome :=
  if safetyRejected userSafety then
    { result := generateEnhancedMockTryOn category randD randR,
      generationCalled := false }
  else if safetyRejected clothingSafety then
    { result := generateEnhancedMockTryOn category randD randR,
      generationCalled := false }
  else
    match gen with
    | .error _ =>
      { result := generateEnhancedMockTryOn category randD randR,
        generationCalled := true }
    | .ok ai =>
      { result :=
          { description := ai.description,
            recommendations := ai.recommendations,
            confidence := if ai.confidence = 0 then 4/5 else ai.confidence,
            generatedImage := ai.generatedImage,
            imageUrl := ai.imageUrl,
            processingMethod := "gemini-2.5-flash-image",
            hasGeneratedImage := strTruthy ai.generatedImage,
            watermarked := true,
            isAIGenerated := true },
        generationCalled := true }

/-- Model of `Math.min` on two finite numbers. -/
def jsMin (a b : ℚ) : ℚ := if a ≤ b then a else b

/-- Model of `Math.max` on two finite numbers. -/
def jsMax (a b : ℚ) : ℚ := if b ≤ a then a else b

/-- Embedding of `TryOnGenerator.calculateQualityScore` (enhanced version):
base `0.5`, plus `confidence * 0.3` when confidence is truthy, plus `0.2`
when `processingMethod === 'gemini-ai'`, plus
`min(recommendations.length * 0.05, 0.15)` when recommendations are
non-empty, clamped into `[0, 1]`. -/
def calculateQualityScore (r : WatermarkedResult) : ℚ :=
  let s1 : ℚ := 1/2
  let s2 := if r.confidence = 0 then s1 else s1 + r.confidence * (3/10)
  let s3 := if r.processingMethod = "gemini-ai" then s2 + 1/5 else s2
  let s4 := if r.recommendations = [] then s3
    else s3 + jsMin ((r.recommendations.length : ℚ) * (1/20)) (3/20)
  jsMin (jsMax s4 0) 1

/-- Post-processed result: the spread of the try-on result plus the quality
score (the stamped id, timestamp, version tag and canvas thumbnail do not
affect the fields the quality score reads and are not modelled). -/
structure FinalResult where
  base : WatermarkedResult
  qualityScore : ℚ

/-- Embedding of `TryOnGenerator.postProcessResult`. -/
def postProcessResult (r : WatermarkedResult) : FinalResult :=
  { base := r, qualityScore := calculateQualityScore r }

/-- A stored user photo (id and capture timestamp). -/
structure UserPhoto where
  id : ℕ
  timestamp : ℕ
deriving DecidableEq

/-- Outcome of one `TryOnGenerator.generateTryOn` run, with flags recording
whether the external generation call was dispatched and whether
`saveTryOnResult` was invoked. -/
structure GenOutcome where
  success : Bool
  result : Option FinalResult
  generationCalled : Bool
  saveInvoked : Bool
  errorMsg : Option String

/-- Embedding of `TryOnGenerator.generateTryOn` (enhanced version):
validate inputs, look up the user photo, prepare both images (`prepOk`
stands for the two preparation steps, which throw on failure), run
`performAITryOn` (which never throws), post-process, and invoke
`saveTryOnResult` unless `options.saveResult === false`
(`saveTryOnResult` swallows its own storage errors). -/
def generateTryOnRun (photos : List UserPhoto) (userPhotoId : ℕ)
    (haveClothingItem : Bool) (prepOk : Bool)
    (userSafety clothingSafety : SafetyOutcome) (category : String)
    (gen : Except String AIResult) (randD randR : ℕ)
    (saveResultOpt : Option Bool) : GenOutcome :=
  if userPhotoId == 0 || !haveClothingItem then
    { success := false, result := none, generationCalled := false,
      saveInvoked := false,
      errorMsg := some "User photo and clothing item are required" }
  else
    match photos.find? (fun p => p.id == userPhotoId) with
    | none =>
      { success := false, result := none, generationCalled := false,
        saveInvoked := false, errorMsg := some "User photo not found" }
    | some _ =>
      if !prepOk then
        { success := false, result := none, generationCalled := false,
          saveInvoked := false, errorMsg := some "preparation failed" }
      else
        let po := performAITryOn userSafety clothingSafety category gen
          randD randR
        { success := true,
          result := some (postProcessResult po.result),
          generationCalled := po.generationCalled,
          saveInvoked := !(saveResultOpt == some false),
          errorMsg := none }

/-- Timestamp comparator of `getBestUserPhoto`:
`(a, b) => b.timestamp - a.timestamp` (most recent first). -/
def tsDescLe (a b : UserPhoto) : Bool := b.timestamp ≤ a.timestamp

/-- Embedding of `TryOnGenerator.getBestUserPhoto` (primary path: the
storage manager resolves with the photo list): throws
`No user photos available` when the list is empty, else returns the most
recent photo. -/
def getBestUserPhoto (photos : List UserPhoto) : Except String UserPhoto :=
  match jsStableSort tsDescLe photos with
  | [] => .error "No user photos available"
  | p :: _ => .ok p

end VTO

namespace VTO

/-! ## Background coordinator (background.js, handleImageProcessing) -/

/-- Detection-stage envelope fields consumed by the coordinator. -/
structure DetectionEnvelope where
  message : String

/-- Response sent by `handleImageProcessing`, with a flag recording whether
`tryOnGenerator.generateTryOn` was dispatched. -/
structure ProcessOutcome where
  success : Bool
  message : String
  generateCalled : Bool
  tryOnIncluded : Bool

/-- The setup hint the coordinator appends in its `if (!bestPhoto)`
branch. -/
def setupHint : String := " (Add photos in Settings to enable virtual try-on)"

/-- Falsiness test the coordinator applies to the resolved best photo.  A
resolved `UserPhoto` is a JS object, and an object value is never falsy,
so this test is constantly `false`. -/
def jsObjectFalsy (_ : UserPhoto) : Bool := false

/-- Embedding of the try-on branch of `handleImageProcessing`: when try-on
is warranted, fetch the best user photo — a throw (in particular
`No user photos available`) is caught and the detection-only result is
returned unchanged; when a photo resolves, the falsiness guard would
append the setup hint, and otherwise the try-on generation proceeds
(`tryOnOk` stands for `tryOnResult.success`). -/
def handleImageProcessing (d : DetectionEnvelope) (shouldTryOn : Bool)
    (photos : List UserPhoto) (itemCount : ℕ) (tryOnOk : Bool) :
    ProcessOutcome :=
  if shouldTryOn then
    match getBestUserPhoto photos with
    | .error _ =>
      { success := true, message := d.message, generateCalled := false,
        tryOnIncluded := false }
    | .ok best =>
      if jsObjectFalsy best then
        { success := true, message := d.message ++ setupHint,
          generateCalled := false, tryOnIncluded := false }
      else if tryOnOk then
        { success := true,
          message := "Virtual try-on generated! Found "
            ++ toString itemCount ++ " item(s) and created try-on result.",
          generateCalled := true, tryOnIncluded := true }
      else
        { success := true, message := d.message, generateCalled := true,
          tryOnIncluded := false }
  else
    { success := true, message := d.message, generateCalled := false,
      tryOnIncluded := false }

end VTO

namespace VTO

/-! ## Helper lemmas: stable sort -/

theorem mem_stableSortInsert {le : α → α → Bool} {a x : α} {l : List α} :
    x ∈ stableSortInsert le a l ↔ x = a ∨ x ∈ l := by
  induction l with
  | nil => simp [stableSortInsert]
  | cons b bs ih =>
    simp only [stableSortInsert]
    split
    · simp [List.mem_cons]
    · simp only [List.mem_cons, ih]
      tauto

theorem pairwise_stableSortInsert {le : α → α → Bool}
    (htrans : ∀ a b c, le a b = true → le b c = true → le a c = true)
    (htot : ∀ a b, le a b = true ∨ le b a = true)
    {a : α} {l : List α}
    (h : List.Pairwise (fun x y => le x y = true) l) :
    List.Pairwise (fun x y => le x y = true) (stableSortInsert le a l) := by
  induction l with
  | nil => simp [stableSortInsert]
  | cons b bs ih =>
    rw [List.pairwise_cons] at h
    obtain ⟨hb, hbs⟩ := h
    simp only [stableSortInsert]
    split
    case isTrue hcond =>
      have hab : le a b = true := by
        cases h1 : le a b with
        | true => rfl
        | false => rw [h1] at hcond; simp at hcond
      refine List.pairwise_cons.mpr ⟨?_, List.pairwise_cons.mpr ⟨hb, hbs⟩⟩
      intro c hc
      rcases List.mem_cons.mp hc with rfl | hc2
      · exact hab
      · exact htrans a b c hab (hb c hc2)
    case isFalse hcond =>
      have hba : le b a = true := by
        cases h2 : le b a with
        | true => rfl
        | false =>
          rcases htot a b with h1 | h1
          · rw [h1, h2] at hcond; simp at hcond
          · exact h2 ▸ h1
      refine List.pairwise_cons.mpr ⟨?_, ih hbs⟩
      intro c hc
      rcases mem_stableSortInsert.mp hc with rfl | hc2
      · exact hba
      · exact hb c hc2

theorem pairwise_foldl_stableSortInsert {le : α → α → Bool}
    (htrans : ∀ a b c, le a b = true → le b c = true → le a c = true)
    (htot : ∀ a b, le a b = true ∨ le b a = true)
    (l : List α) (acc : List α)
    (hacc : List.Pairwise (fun x y => le x y = true) acc) :
    List.Pairwise (fun x y => le x y = true)
      (l.foldl (fun acc a => stableSortInsert le a acc) acc) := by
  induction l generalizing acc with
  | nil => exact hacc
  | cons a as ih =>
    exact ih _ (pairwise_stableSortInsert htrans htot hacc)

theorem pairwise_jsStableSort {le : α → α → Bool}
    (htrans : ∀ a b c, le a b = true → le b c = true → le a c = true)
    (htot : ∀ a b, le a b = true ∨ le b a = true) (l : List α) :
    List.Pairwise (fun x y => le x y = true) (jsStableSort le l) :=
  pairwise_foldl_stableSortInsert htrans htot l [] List.Pairwise.nil

theorem mem_foldl_stableSortInsert {le : α → α → Bool} {x : α}
    {l acc : List α}
    (h : x ∈ l.foldl (fun acc a => stableSortInsert le a acc) acc) :
    x ∈ acc ∨ x ∈ l := by
  induction l generalizing acc with
  | nil => exact Or.inl h
  | cons a as ih =>
    rcases ih h with h2 | h2
    · rcases mem_stableSortInsert.mp h2 with rfl | h3
      · exact Or.inr (List.mem_cons_self _ _)
      · exact Or.inl h3
    · exact Or.inr (List.mem_cons_of_mem _ h2)

theorem mem_jsStableSort {le : α → α → Bool} {x : α} {l : List α}
    (h : x ∈ jsStableSort le l) : x ∈ l := by
  rcases mem_foldl_stableSortInsert h with h2 | h2
  · exact absurd h2 (List.not_mem_nil x)
  · exact h2

theorem mem_insertOnce {ks : List (ℕ × ℕ × ℕ)} {k x : ℕ × ℕ × ℕ}
    (h : x ∈ insertOnce ks k) : x ∈ ks ∨ x = k := by
  unfold insertOnce at h
  split at h
  · exact Or.inl h
  · rcases List.mem_append.mp h with h2 | h2
    · exact Or.inl h2
    · exact Or.inr (List.mem_singleton.mp h2)

theorem mem_foldl_insertOnce {l acc : List (ℕ × ℕ × ℕ)} {x : ℕ × ℕ × ℕ}
    (h : x ∈ l.foldl insertOnce acc) : x ∈ acc ∨ x ∈ l := by
  induction l generalizing acc with
  | nil => exact Or.inl h
  | cons a as ih =>
    rcases ih h with h2 | h2
    · rcases mem_insertOnce h2 with h3 | rfl
      · exact Or.inl h3
      · exact Or.inr (List.mem_cons_self _ _)
    · exact Or.inr (List.mem_cons_of_mem _ h2)

theorem mem_firstOccurrences {l : List (ℕ × ℕ × ℕ)} {x : ℕ × ℕ × ℕ}
    (h : x ∈ firstOccurrences l) : x ∈ l := by
  rcases mem_foldl_insertOnce h with h2 | h2
  · exact absurd h2 (List.not_mem_nil x)
  · exact h2

end VTO

namespace VTO

/-! ## Helper lemmas: image extraction -/

theorem partImageData_some_ne_nil {p : RespPart} {d : String}
    (h : partImageData p = some d) : d.data ≠ [] := by
  rcases p with ⟨idt, t⟩
  cases idt with
  | none => simp [partImageData] at h
  | some ib =>
    rcases ib with ⟨mt, ds⟩
    cases mt with
    | none => simp [partImageData] at h
    | some mt0 =>
      cases ds with
      | none => simp [partImageData] at h
      | some d0 =>
        simp only [partImageData] at h
        split at h
        case isTrue hc =>
          injection h with h2
          subst h2
          intro hnil
          rw [hnil] at hc
          simp at hc
        case isFalse => exact absurd h (by simp)

theorem dataUriAt_some_ne_nil {s ds : List Char}
    (h : dataUriAt s = some ds) : ds ≠ [] := by
  simp only [dataUriAt] at h
  split at h
  · split at h
    · exact absurd h (by simp)
    · split at h
      · split at h
        · exact absurd h (by simp)
        case isFalse hne =>
          injection h with h2
          subst h2
          intro hnil
          rw [hnil] at hne
          simp at hne
      · exact absurd h (by simp)
  · exact absurd h (by simp)

theorem scanDataUri_some_ne_nil :
    ∀ {s : List Char} {ds : List Char}, scanDataUri s = some ds → ds ≠ []
  | [], _, h => by simp [scanDataUri] at h
  | c :: rest, ds, h => by
    unfold scanDataUri at h
    cases hda : dataUriAt (c :: rest) with
    | some r =>
      rw [hda] at h
      injection h with h2
      exact h2 ▸ dataUriAt_some_ne_nil hda
    | none =>
      rw [hda] at h
      exact scanDataUri_some_ne_nil h

theorem partTextDataUri_some_ne_nil {p : RespPart} {d : String}
    (h : partTextDataUri p = some d) : d.data ≠ [] := by
  unfold partTextDataUri at h
  rcases p with ⟨idt, t⟩
  cases t with
  | none => simp at h
  | some t0 =>
    simp only [] at h
    split at h
    · rcases Option.map_eq_some'.mp h with ⟨ds, hds, rfl⟩
      exact scanDataUri_some_ne_nil hds
    · exact absurd h (by simp)

theorem strTruthy_getD_ne_nil {o : Option String}
    (h : strTruthy o = true) : ((o.getD "").data ≠ []) := by
  cases o with
  | none => simp [strTruthy] at h
  | some s =>
    simp only [strTruthy] at h
    simpa [List.isEmpty_iff] using h

theorem extractGeneratedImage_ne_nil (r : GeminiResponse) :
    (extractGeneratedImage r).data ≠ [] := by
  rcases r with ⟨cands⟩
  cases cands with
  | none => decide
  | some l =>
    cases l with
    | nil => decide
    | cons c cs =>
      unfold extractGeneratedImage
      dsimp only
      cases hf : (candParts c).findSome? partImageData with
      | some d =>
        rcases List.exists_of_findSome?_eq_some hf with ⟨p, _, hp⟩
        exact partImageData_some_ne_nil hp
      | none =>
        simp only []
        split
        case isTrue h1 => exact strTruthy_getD_ne_nil h1
        case isFalse h1 =>
          split
          case isTrue h2 => exact strTruthy_getD_ne_nil h2
          case isFalse h2 =>
            cases ht : (candParts c).findSome? partTextDataUri with
            | some d =>
              rcases List.exists_of_findSome?_eq_some ht with ⟨p, _, hp⟩
              exact partTextDataUri_some_ne_nil hp
            | none => decide

theorem extract_eq_fallback {r : GeminiResponse}
    (h : responseHasImage r = false) :
    extractGeneratedImage r = createFallbackTryOnImage := by
  rcases r with ⟨cands⟩
  cases cands with
  | none => rfl
  | some l =>
    cases l with
    | nil => rfl
    | cons c cs =>
      unfold responseHasImage at h
      unfold extractGeneratedImage
      dsimp only at h ⊢
      simp only [Bool.or_eq_false_iff] at h
      obtain ⟨⟨⟨h1, h2⟩, h3⟩, h4⟩ := h
      have hf : (candParts c).findSome? partImageData = none := by
        rw [List.findSome?_eq_none_iff]
        intro p hp
        have := List.any_eq_false.mp h1 p hp
        exact Option.not_isSome_iff_eq_none.mp (by simpa using this)
      have ht : (candParts c).findSome? partTextDataUri = none := by
        rw [List.findSome?_eq_none_iff]
        intro p hp
        have := List.any_eq_false.mp h4 p hp
        exact Option.not_isSome_iff_eq_none.mp (by simpa using this)
      rw [hf, ht]
      simp [h2, h3]

end VTO

namespace VTO

/-! ## Claim C4 and C5: Generate fallback, Refine asymmetry -/

/-- A service response whose only part is plain text without any data-URI
image: no recognized image shape of any kind. -/
def respTextOnly : GeminiResponse :=
  { candidates := some
      [{ content := some
          { parts := some
              [{ inlineData := none,
                 text := some "Here is a description, but no image." }] },
         image := none, imageData := none }] }

/-- C4: if the Generate response contains no image part of any recognized
shape (no inline-data image part, no `candidate.image` / `image_data`
field, no data-URI image in a text part), image extraction returns the
locally synthesized fallback placeholder instead of raising, and the
extracted payload is always a non-empty (non-null) image string. -/
theorem C4_generate_fallback (r : GeminiResponse)
    (h : responseHasImage r = false) :
    extractGeneratedImage r = createFallbackTryOnImage ∧
    (extractGeneratedImage r).data ≠ [] :=
  ⟨extract_eq_fallback h, extractGeneratedImage_ne_nil r⟩

/-- Witness for C4 at a concrete text-only response. -/
theorem C4_generate_fallback_witness :
    responseHasImage respTextOnly = false ∧
    (extractGeneratedImage respTextOnly = createFallbackTryOnImage ∧
      (extractGeneratedImage respTextOnly).data ≠ []) :=
  ⟨by decide, C4_generate_fallback respTextOnly (by decide)⟩

/-- Counterexample to C5: on a Refine response with no usable image part,
`refineGeneratedImage` does NOT surface an explicit error — it reports
`success: true` and substitutes the synthesized fallback placeholder,
because it extracts with the same always-truthy `extractGeneratedImage`
as Generate. -/
theorem C5_counterexample :
    (refineGeneratedImage (Except.ok respTextOnly)).success = true ∧
    (refineGeneratedImage (Except.ok respTextOnly)).refinedImage
      = some createFallbackTryOnImage := by
  constructor
  · decide
  · decide

/-- C5 (amended): for every Refine response with no usable image part,
`refineGeneratedImage` silently substitutes the synthesized fallback
placeholder with `success: true` — exactly like Generate; an explicit
error result (`success: false`) arises only when the Refine API call
itself throws. -/
theorem C5_refine_fallback (resp : GeminiResponse) (e : String)
    (h : responseHasImage resp = false) :
    refineGeneratedImage (Except.ok resp) =
      { success := true,
        refinedImage := some createFallbackTryOnImage,
        imageUrl := some ("data:image/jpeg;base64," ++ createFallbackTryOnImage),
        errorMsg := none } ∧
    (refineGeneratedImage (Except.error e)).success = false := by
  constructor
  · simp only [refineGeneratedImage]
    rw [extract_eq_fallback h]
    decide
  · rfl

/-- A second concrete no-image Refine response for the C5 witness. -/
def respRefineNoImage : GeminiResponse :=
  { candidates := some
      [{ content := some
          { parts := some
              [{ inlineData := none,
                 text := some "Refinement applied as requested." }] },
         image := none, imageData := none }] }

/-- Witness for the amended C5 at a concrete response and error. -/
theorem C5_refine_fallback_witness :
    responseHasImage respRefineNoImage = false ∧
    (refineGeneratedImage (Except.ok respRefineNoImage) =
      { success := true,
        refinedImage := some createFallbackTryOnImage,
        imageUrl := some ("data:image/jpeg;base64," ++ createFallbackTryOnImage),
        errorMsg := none } ∧
    (refineGeneratedImage (Except.error "network down")).success = false) :=
  ⟨by decide, C5_refine_fallback respRefineNoImage "network down" (by decide)⟩

end VTO

namespace VTO

/-! ## Claim C8: color extraction -/

/-- C8: `analyzeColors` returns at most `k` entries, sorted in descending
order of frequency count, and every returned entry's color comes from a
sampled pixel whose alpha exceeds the opacity threshold 128 — in
particular, fully transparent pixels are never counted. -/
theorem C8_extract_colors (data : List ℕ) (k : ℕ) :
    (analyzeColors data k).length ≤ k ∧
    List.Pairwise (fun e1 e2 => e2.2 ≤ e1.2) (analyzeColors data k) ∧
    ∀ e ∈ analyzeColors data k,
      ∃ r g b a, (r, g, b, a) ∈ sampledPixels data ∧ 128 < a ∧
        e.1 = (r, g, b) := by
  have htrans : ∀ x y z : (ℕ × ℕ × ℕ) × ℕ,
      countDescLe x y = true → countDescLe y z = true →
        countDescLe x z = true := by
    intro x y z h1 h2
    simp only [countDescLe, decide_eq_true_eq] at h1 h2 ⊢
    omega
  have htot : ∀ x y : (ℕ × ℕ × ℕ) × ℕ,
      countDescLe x y = true ∨ countDescLe y x = true := by
    intro x y
    simp only [countDescLe, decide_eq_true_eq]
    omega
  refine ⟨?_, ?_, ?_⟩
  · unfold analyzeColors
    simp only [List.length_take]
    exact min_le_left _ _
  · have hs := pairwise_jsStableSort htrans htot
      ((firstOccurrences (sampledSolidColors data)).map
        fun k2 => (k2, (sampledSolidColors data).count k2))
    unfold analyzeColors
    refine List.Pairwise.imp ?_
      (List.Pairwise.sublist (List.take_sublist _ _) hs)
    intro e1 e2 h
    simpa [countDescLe, decide_eq_true_eq] using h
  · intro e he
    unfold analyzeColors at he
    have h1 := (List.take_sublist _ _).subset he
    have h2 := mem_jsStableSort h1
    rcases List.mem_map.mp h2 with ⟨key, hkey, rfl⟩
    have h3 := mem_firstOccurrences hkey
    unfold sampledSolidColors at h3
    rcases List.mem_filterMap.mp h3 with ⟨p, hp, hpe⟩
    rcases p with ⟨r, ⟨g, ⟨b, a⟩⟩⟩
    split at hpe
    case isTrue hlt =>
      injection hpe with h4
      exact ⟨r, g, b, a, hp, hlt, h4.symm⟩
    case isFalse => exact absurd hpe (by simp)

/-! ## Claim C10: the safety gate fails open -/

/-- C10: `validateImageSafety` resolves with `safe: false` exactly when the
API key is set, the guarded call resolves with text containing a brace
span, and the decoded JSON explicitly sets `safe` to `false`.  In every
other situation — no API key, a thrown call, no JSON object in the text,
or a decode failure — it resolves with `safe: true`, so an unavailable
safety service can never block a generation run. -/
theorem C10_safety_fails_open (k : Bool) (call : Except String String)
    (decode : String → SafetyJson) :
    (validateImageSafety k call decode).safe = false ↔
      (k = true ∧ ∃ content, call = Except.ok content ∧
        ∃ m, braceMatch content = some m ∧
          ∃ cs rec, decode m = SafetyJson.decoded (some false) cs rec) := by
  cases k with
  | false => simp [validateImageSafety]
  | true =>
    cases call with
    | error e => simp [validateImageSafety]
    | ok content =>
      cases hbm : braceMatch content with
      | none => simp [validateImageSafety, hbm]
      | some m =>
        cases hdec : decode m with
        | fail => simp [validateImageSafety, hbm, hdec]
        | decoded sf cs rec =>
          cases sf with
          | none => simp [validateImageSafety, hbm, hdec]
          | some b => cases b <;> simp [validateImageSafety, hbm, hdec]

/-! ## Claim C9: missing subject photo -/

/-- C9: when try-on is warranted but no user photo is stored,
`getBestUserPhoto` throws, the coordinator's catch returns the
detection-only result unchanged and no generation call is made — but the
response message is exactly the detection message, WITHOUT the setup hint:
the hint branch is guarded by a falsiness test on a resolved photo object,
which is constantly false, so it is unreachable. -/
theorem C9_no_subject_photo (d : DetectionEnvelope) (n : ℕ) (t : Bool) :
    (handleImageProcessing d true [] n t).success = true ∧
    (handleImageProcessing d true [] n t).message = d.message ∧
    (handleImageProcessing d true [] n t).generateCalled = false ∧
    (handleImageProcessing d true [] n t).tryOnIncluded = false ∧
    ∀ p : UserPhoto, jsObjectFalsy p = false :=
  ⟨rfl, rfl, rfl, rfl, fun _ => rfl⟩

end VTO

namespace VTO

/-! ## Claim C7: resize dimensions -/

theorem floor_nat_add_half (n : ℕ) : ⌊(n : ℚ) + 1/2⌋ = n := by
  rw [Int.floor_eq_iff]
  constructor
  · push_cast
    linarith
  · push_cast
    linarith

theorem jsRound_le_nat {q : ℚ} {n : ℕ} (h : q ≤ n) : jsRound q ≤ (n : ℤ) := by
  rw [jsRound_eq_floor]
  calc ⌊q + 1/2⌋ ≤ ⌊(n : ℚ) + 1/2⌋ := Int.floor_le_floor (by linarith)
    _ = n := floor_nat_add_half n

/-- C7: for positive source dimensions and positive integer bounds,
`calculateDimensions` produces `width ≤ maxWidth` and `height ≤ maxHeight`,
and the rounded output comes from a pair of positive reals in exactly the
source aspect ratio (`w * oh = h * ow`), i.e. the ratio is preserved up to
the final integer rounding. -/
theorem C7_resize_dimensions (ow oh : ℚ) (mw mh : ℕ)
    (how : 0 < ow) (hoh : 0 < oh) (hmw : 0 < mw) (hmh : 0 < mh) :
    (calculateDimensions ow oh mw mh).1 ≤ (mw : ℤ) ∧
    (calculateDimensions ow oh mw mh).2 ≤ (mh : ℤ) ∧
    ∃ w h : ℚ, 0 < w ∧ 0 < h ∧ w * oh = h * ow ∧
      (calculateDimensions ow oh mw mh).1 = jsRound w ∧
      (calculateDimensions ow oh mw mh).2 = jsRound h := by
  have hmw2 : (0:ℚ) < mw := by exact_mod_cast hmw
  have hmh2 : (0:ℚ) < mh := by exact_mod_cast hmh
  simp only [calculateDimensions]
  by_cases h1 : (mw : ℚ) < ow
  · simp only [if_pos h1]
    by_cases h2 : (mh : ℚ) < oh * (mw : ℚ) / ow
    · simp only [if_pos h2]
      have hD : (0:ℚ) < oh * (mw : ℚ) / ow := by positivity
      refine ⟨?_, ?_, (mw : ℚ) * mh / (oh * (mw : ℚ) / ow), mh, ?_, hmh2,
        ?_, rfl, rfl⟩
      · apply jsRound_le_nat
        rw [div_le_iff₀ hD]
        nlinarith [h2.le]
      · exact jsRound_le_nat le_rfl
      · positivity
      · field_simp
        ring
    · simp only [if_neg h2]
      refine ⟨?_, ?_, (mw : ℚ), oh * (mw : ℚ) / ow, hmw2, by positivity,
        ?_, rfl, rfl⟩
      · exact jsRound_le_nat le_rfl
      · exact jsRound_le_nat (not_lt.mp h2)
      · field_simp
        ring
  · simp only [if_neg h1]
    by_cases h3 : (mh : ℚ) < oh
    · simp only [if_pos h3]
      refine ⟨?_, ?_, ow * (mh : ℚ) / oh, mh, by positivity, hmh2,
        ?_, rfl, rfl⟩
      · apply jsRound_le_nat
        have h4 : ow * (mh : ℚ) / oh ≤ ow := by
          rw [div_le_iff₀ hoh]
          nlinarith [h3.le]
        linarith [not_lt.mp h1]
      · exact jsRound_le_nat le_rfl
      · field_simp
        ring
    · simp only [if_neg h3]
      refine ⟨jsRound_le_nat (not_lt.mp h1), jsRound_le_nat (not_lt.mp h3),
        ow, oh, how, hoh, by ring, rfl, rfl⟩

/-- Witness for C7 at a 4000 × 3000 source bounded by 1024 × 1024. -/
theorem C7_resize_dimensions_witness :
    (0:ℚ) < 4000 ∧ (0:ℚ) < 3000 ∧ 0 < 1024 ∧
    ((calculateDimensions 4000 3000 1024 1024).1 ≤ (1024 : ℤ) ∧
     (calculateDimensions 4000 3000 1024 1024).2 ≤ (1024 : ℤ) ∧
     ∃ w h : ℚ, 0 < w ∧ 0 < h ∧ w * 3000 = h * 4000 ∧
       (calculateDimensions 4000 3000 1024 1024).1 = jsRound w ∧
       (calculateDimensions 4000 3000 1024 1024).2 = jsRound h) :=
  ⟨by norm_num, by norm_num, by norm_num,
    C7_resize_dimensions 4000 3000 1024 1024 (by norm_num) (by norm_num)
      (by norm_num) (by norm_num)⟩

end VTO

namespace VTO

/-! ## Claim C6: detect parsing -/

/-- A Detect response whose text contains a brace span that is not valid
JSON, so `JSON.parse` throws. -/
def respBadJson : GeminiResponse :=
  { candidates := some
      [{ content := some
          { parts := some
              [{ inlineData := none, text := some "\x7bnot json\x7d" }] },
         image := none, imageData := none }] }

/-- Counterexample to C6: when the brace span exists but structured decode
fails, `parseClothingDetectionResponse` does NOT degrade — the
`JSON.parse` exception reaches the function's `catch` and the whole call
returns `success: false`.  Decode failure IS fatal. -/
theorem C6_counterexample :
    (parseClothingDetectionResponse respBadJson
      (fun _ => DetectJson.fail)).success = false := by decide

/-- C6 (amended): the parser extracts the greedy span from the first
opening brace to the last closing brace (not the first balanced group);
when no such span exists it degrades to a successful result with
`items: []` and `metadata.rawText` equal to the full text; but when a span
exists and structured decode fails, the whole call yields
`success: false`. -/
theorem C6_detect_parse (r : GeminiResponse) (decode : String → DetectJson)
    (content : String) (h : firstPartText r = some content) :
    (braceMatch content = none →
      parseClothingDetectionResponse r decode =
        { success := true, items := [], metaRawText := some content,
          metaBackground := none, metaLighting := none, metaQuality := none,
          errorMsg := none }) ∧
    (∀ m, braceMatch content = some m → decode m = DetectJson.fail →
      (parseClothingDetectionResponse r decode).success = false) := by
  rcases r with ⟨cands⟩
  cases cands with
  | none => simp [firstPartText] at h
  | some l =>
    cases l with
    | nil => simp [firstPartText] at h
    | cons c cs =>
      constructor
      · intro hbm
        simp only [parseClothingDetectionResponse, h, hbm]
      · intro m hbm hdec
        simp only [parseClothingDetectionResponse, h, hbm, hdec]

/-- A Detect response whose text contains no brace at all. -/
def respNoJson : GeminiResponse :=
  { candidates := some
      [{ content := some
          { parts := some
              [{ inlineData := none,
                 text := some "plain text without braces" }] },
         image := none, imageData := none }] }

/-- Witness for the amended C6 at a concrete braceless response. -/
theorem C6_detect_parse_witness :
    firstPartText respNoJson = some "plain text without braces" ∧
    ((braceMatch "plain text without braces" = none →
      parseClothingDetectionResponse respNoJson (fun _ => DetectJson.fail) =
        { success := true, items := [],
          metaRawText := some "plain text without braces",
          metaBackground := none, metaLighting := none, metaQuality := none,
          errorMsg := none }) ∧
    (∀ m, braceMatch "plain text without braces" = some m →
      (fun _ => DetectJson.fail) m = DetectJson.fail →
      (parseClothingDetectionResponse respNoJson
        (fun _ => DetectJson.fail)).success = false)) :=
  ⟨by decide,
    C6_detect_parse respNoJson (fun _ => DetectJson.fail)
      "plain text without braces" (by decide)⟩

end VTO

namespace VTO

/-! ## Claims C1, C2, C3: safety gating, quality score, clamping -/

/-- Safety outcome of a run where the service decodes
`\x7b"safe": false, "recommendation": "reject"\x7d`. -/
def rejectSafety : SafetyOutcome :=
  validateImageSafety true
    (Except.ok "\x7b\"safe\": false, \"recommendation\": \"reject\"\x7d")
    (fun _ => SafetyJson.decoded (some false) none (some "reject"))

/-- Safety outcome of a run where the service decodes `\x7b"safe": true\x7d`. -/
def proceedSafety : SafetyOutcome :=
  validateImageSafety true (Except.ok "\x7b\"safe\": true\x7d")
    (fun _ => SafetyJson.decoded (some true) none (some "proceed"))

/-- Safety outcome where the service recommends `reject` while still
reporting `safe: true`. -/
def rejectButSafe : SafetyOutcome :=
  validateImageSafety true
    (Except.ok "\x7b\"safe\": true, \"recommendation\": \"reject\"\x7d")
    (fun _ => SafetyJson.decoded (some true) none (some "reject"))

/-- A successful external generation payload with confidence 0.9 and a
valid generated image. -/
def aiOkResult : AIResult :=
  { generatedImage := some "IMGDATA",
    imageUrl := some "data:image/jpeg;base64,IMGDATA",
    description := "Nice fit",
    recommendations := [],
    confidence := 9/10,
    safetyAssessment := "appropriate",
    advanced := true }

/-- Counterexample to C1 (two runs): with the garment safety check decoded
as safe false with recommendation reject, the external generation call is
indeed skipped — but `generateTryOnRun` still persists a result
(`saveInvoked = true`), because `performAITryOn` catches its own rejection
throw and substitutes the mock fallback.  And when the service answers
`recommendation: reject` with `safe: true`, the rejection test
`!safe && recommendation === reject` fails and the generation call IS
made. -/
theorem C1_counterexample :
    ((generateTryOnRun [⟨1, 10⟩] 1 true true proceedSafety rejectSafety
        "tops" (Except.ok aiOkResult) 0 0 none).generationCalled = false ∧
     (generateTryOnRun [⟨1, 10⟩] 1 true true proceedSafety rejectSafety
        "tops" (Except.ok aiOkResult) 0 0 none).saveInvoked = true) ∧
    (generateTryOnRun [⟨1, 10⟩] 1 true true proceedSafety rejectButSafe
        "tops" (Except.ok aiOkResult) 0 0 none).generationCalled = true := by
  refine ⟨⟨?_, ?_⟩, ?_⟩ <;> decide

/-- C1 (amended): when `validateImageSafety` on either input yields
`safe: false` together with `recommendation: "reject"`, a valid run makes
no external generation call — but instead of aborting, `performAITryOn`
returns the watermarked mock fallback and `generateTryOnRun` still
invokes `saveTryOnResult` (whenever `options.saveResult` is not `false`)
and reports success. -/
theorem C1_safety_reject_mock (photos : List UserPhoto) (pid : ℕ)
    (prep : Bool) (us cs : SafetyOutcome) (cat : String)
    (gen : Except String AIResult) (rD rR : ℕ) (so : Option Bool)
    (p : UserPhoto)
    (hpid : pid ≠ 0)
    (hfind : photos.find? (fun q => q.id == pid) = some p)
    (hprep : prep = true)
    (hrej : safetyRejected us = true ∨ safetyRejected cs = true)
    (hso : so ≠ some false) :
    (generateTryOnRun photos pid true prep us cs cat gen rD rR
      so).generationCalled = false ∧
    ((generateTryOnRun photos pid true prep us cs cat gen rD rR
      so).result.map (fun fr => fr.base.processingMethod))
        = some "enhanced-mock-generator" ∧
    ((generateTryOnRun photos pid true prep us cs cat gen rD rR
      so).result.map (fun fr => fr.base.watermarked)) = some true ∧
    (generateTryOnRun photos pid true prep us cs cat gen rD rR
      so).saveInvoked = true ∧
    (generateTryOnRun photos pid true prep us cs cat gen rD rR
      so).success = true := by
  subst hprep
  have hpid2 : (pid == 0) = false := by
    rw [beq_eq_false_iff_ne]
    exact hpid
  have hso2 : (so == some false) = false := by
    rw [beq_eq_false_iff_ne]
    exact hso
  have hperf : performAITryOn us cs cat gen rD rR =
      { result := generateEnhancedMockTryOn cat rD rR,
        generationCalled := false } := by
    unfold performAITryOn
    rcases hrej with hu | hc
    · rw [if_pos hu]
    · by_cases hu : safetyRejected us = true
      · rw [if_pos hu]
      · rw [if_neg hu, if_pos hc]
  simp only [generateTryOnRun, hpid2, hfind, hperf, hso2, Bool.not_true,
    Bool.or_false, Bool.false_or, Bool.not_false, if_false]
  refine ⟨rfl, rfl, rfl, rfl, rfl⟩

/-- Witness for the amended C1 at a concrete rejected garment check. -/
theorem C1_safety_reject_mock_witness :
    (1 : ℕ) ≠ 0 ∧
    ([⟨1, 10⟩] : List UserPhoto).find? (fun q => q.id == 1) = some ⟨1, 10⟩ ∧
    (true : Bool) = true ∧
    (safetyRejected proceedSafety = true ∨
      safetyRejected rejectSafety = true) ∧
    (none : Option Bool) ≠ some false ∧
    ((generateTryOnRun [⟨1, 10⟩] 1 true true proceedSafety rejectSafety
      "tops" (Except.ok aiOkResult) 0 0 none).generationCalled = false ∧
    ((generateTryOnRun [⟨1, 10⟩] 1 true true proceedSafety rejectSafety
      "tops" (Except.ok aiOkResult) 0 0 none).result.map
        (fun fr => fr.base.processingMethod))
          = some "enhanced-mock-generator" ∧
    ((generateTryOnRun [⟨1, 10⟩] 1 true true proceedSafety rejectSafety
      "tops" (Except.ok aiOkResult) 0 0 none).result.map
        (fun fr => fr.base.watermarked)) = some true ∧
    (generateTryOnRun [⟨1, 10⟩] 1 true true proceedSafety rejectSafety
      "tops" (Except.ok aiOkResult) 0 0 none).saveInvoked = true ∧
    (generateTryOnRun [⟨1, 10⟩] 1 true true proceedSafety rejectSafety
      "tops" (Except.ok aiOkResult) 0 0 none).success = true) :=
  ⟨by decide, by decide, rfl, Or.inr (by decide), by decide,
    C1_safety_reject_mock [⟨1, 10⟩] 1 true proceedSafety rejectSafety
      "tops" (Except.ok aiOkResult) 0 0 none ⟨1, 10⟩ (by decide) (by decide)
      rfl (Or.inr (by decide)) (by decide)⟩

end VTO

namespace VTO

/-! ## Claim C2: quality score in Scenario A -/

/-- Scenario A run: subject photo stored, garment supplied, both safety
checks pass, the external generation call succeeds with confidence 0.9,
no recommendations. -/
def scenarioARun : GenOutcome :=
  generateTryOnRun [⟨1, 10⟩] 1 true true proceedSafety proceedSafety "tops"
    (Except.ok aiOkResult) 0 0 (some true)

/-- The watermarked result `performAITryOn` builds on the Scenario A
success path. -/
def scenarioAWm : WatermarkedResult :=
  { description := aiOkResult.description,
    recommendations := aiOkResult.recommendations,
    confidence := if aiOkResult.confidence = 0 then 4/5
      else aiOkResult.confidence,
    generatedImage := aiOkResult.generatedImage,
    imageUrl := aiOkResult.imageUrl,
    processingMethod := "gemini-2.5-flash-image",
    hasGeneratedImage := strTruthy aiOkResult.generatedImage,
    watermarked := true,
    isAIGenerated := true }

/-- C2 evaluation: in Scenario A the produced result carries
`processingMethod = "gemini-2.5-flash-image"`, and its quality score is
`0.77`, not at least `0.97`: the `+ 0.2` bonus branch of
`calculateQualityScore` compares against the tag `"gemini-ai"`, which no
pipeline result ever carries. -/
theorem C2_quality_bonus_dead :
    (scenarioARun.result.map (fun fr => fr.base.processingMethod))
      = some "gemini-2.5-flash-image" ∧
    (scenarioARun.result.map (fun fr => fr.qualityScore)) = some (77/100) ∧
    (77 : ℚ)/100 < 97/100 := by
  refine ⟨by decide, ?_, by norm_num⟩
  have h1 : scenarioARun.result.map (fun fr => fr.qualityScore)
      = some (calculateQualityScore scenarioAWm) := rfl
  rw [h1]
  have hne : ¬("gemini-2.5-flash-image" = "gemini-ai") := by decide
  norm_num [calculateQualityScore, scenarioAWm, aiOkResult, jsMin, jsMax,
    if_neg hne]

end VTO

namespace VTO

/-! ## Claim C3: confidence and quality score ranges -/

/-- A Generate response carrying a genuine inline image part. -/
def respImageOnly : GeminiResponse :=
  { candidates := some
      [{ content := some
          { parts := some
              [{ inlineData := some
                  { mimeType := some "image/png", dataStr := some "IMGDATA" },
                 text := none }] },
         image := none, imageData := none }] }

/-- An Analyze response whose text is exactly `confidence: 85` — the
adversarial textual confidence of the claim. -/
def respConfText : GeminiResponse :=
  { candidates := some
      [{ content := some
          { parts := some
              [{ inlineData := none, text := some "confidence: 85" }] },
         image := none, imageData := none }] }

/-- The external-result value produced for that pair of responses (the
structured decode fails, so the heuristic text path runs). -/
def adversarialGen : Except String AIResult :=
  geminiGenerateTryOn true (Except.ok respImageOnly) (Except.ok respConfText)
    (fun _ => AnalysisJson.fail)

/-- The full pipeline run fed with the adversarial analysis text. -/
def adversarialRun : GenOutcome :=
  generateTryOnRun [⟨1, 10⟩] 1 true true proceedSafety proceedSafety "tops"
    adversarialGen 0 0 none

/-- Counterexample to C3: the text match `confidence: 85` is extracted by
`extractConfidence` as the number 85, and the pipeline propagates it
unclamped: the produced result's `confidence` field is 85, far outside
`[0, 1]`. -/
theorem C3_counterexample :
    extractConfidence "confidence: 85" = 85 ∧
    adversarialRun.result.map (fun fr => fr.base.confidence) = some 85 ∧
    ¬((85 : ℚ) ≤ 1) := by
  refine ⟨by decide, by decide, by norm_num⟩

/-- C3 (amended): the quality score is always clamped into `[0, 1]` — for
every result object, whatever its confidence, processing method and
recommendation list.  (The `confidence` field itself, by contrast, is
passed through unclamped.) -/
theorem C3_quality_clamped (r : WatermarkedResult) :
    0 ≤ calculateQualityScore r ∧ calculateQualityScore r ≤ 1 := by
  have clamp01 : ∀ s : ℚ, 0 ≤ jsMin (jsMax s 0) 1 ∧ jsMin (jsMax s 0) 1 ≤ 1 := by
    intro s
    unfold jsMin jsMax
    split_ifs <;> constructor <;> linarith
  exact clamp01 _

end VTO
